import Mathlib

/-!
Verification of the `profiler` package (HTTP profiling frontend).

The Go handlers `Profiler.Profile`, `Profiler.Trace`, `Profiler.Symbol` and
`Profiler.Cmdline` are embedded as pure Lean functions.  External collaborators
(the Go standard library: `strconv`, `fmt`, `runtime/pprof`, `runtime.FuncForPC`,
and the `profile` / `symbolz` / `report` packages) are either embedded from
their documented semantics (`strconv` parsers, `fmt` formatting with no
operands) or passed in as explicit parameters (parse / symbolize / report
functions, the symbol-table oracle, the outcome of starting a capture).

The HTTP `ResponseWriter` is modelled operationally: a status that is fixed by
the first `WriteHeader` or the first body write, an accumulated body, and a
count of `Write` calls.
-/

/-- Error classification of Go `strconv` parse calls: success, syntax error
(`ErrSyntax`) or out-of-range (`ErrRange`). -/
inductive GoPErr where
  | ok
  | syntaxErr
  | rangeErr
deriving DecidableEq

/-- Go `strconv`'s `lower(c) = c | ('x' - 'X')` byte operation, on characters. -/
def lowerC (c : Char) : Char := Char.ofNat (c.toNat ||| 32)

/-- `1<<64 - 1`, the largest `uint64` value (`maxVal` for `bitSize = 64`). -/
def maxU64 : Nat := 18446744073709551615

/-- `cutoff` of Go `strconv.ParseUint`: smallest `n` with `n * base > maxU64`. -/
def uintCutoff (base : Nat) : Nat := maxU64 / base + 1

/-- The digit-accumulation loop of Go `strconv.ParseUint` (`bitSize = 64`).
`skipUnderscore` is true when the original call had `base == 0` (underscores
are skipped in the loop and validated separately by `underscoreOK`).
On a non-digit or digit ≥ base Go returns `0, ErrSyntax`; once the accumulator
would overflow `uint64` it returns `maxVal, ErrRange`. -/
def parseUintLoop (base : Nat) (skipUnderscore : Bool) (n : Nat) :
    List Char → Nat × GoPErr
  | [] => (n, .ok)
  | c :: cs =>
    if skipUnderscore ∧ c = '_' then parseUintLoop base skipUnderscore n cs
    else
      match
        (if '0' ≤ c ∧ c ≤ '9' then some (c.toNat - 48)
         else if 'a' ≤ lowerC c ∧ lowerC c ≤ 'z' then some ((lowerC c).toNat - 97 + 10)
         else none : Option Nat) with
      | none => (0, .syntaxErr)
      | some d =>
        if base ≤ d then (0, .syntaxErr)
        else if uintCutoff base ≤ n then (maxU64, .rangeErr)
        else if maxU64 < n * base + d then (maxU64, .rangeErr)
        else parseUintLoop base skipUnderscore (n * base + d) cs

/-- Go `strconv.ParseUint(s, 10, 64)` applied to an already sign-stripped
character list (as called from `ParseInt`): empty input is a syntax error,
no base prefix, no underscores. -/
def parseUint10 (cs : List Char) : Nat × GoPErr :=
  match cs with
  | [] => (0, .syntaxErr)
  | _ => parseUintLoop 10 false 0 cs

/-- The cutoff logic at the end of Go `strconv.ParseInt` (`bitSize = 64`):
clamp to `MaxInt64` / `MinInt64` with `ErrRange` when the unsigned magnitude
does not fit. -/
def intCutoffStep (neg : Bool) (un : Nat) (e : GoPErr) : Int × GoPErr :=
  if neg = false ∧ 9223372036854775808 ≤ un then (9223372036854775807, .rangeErr)
  else if neg = true ∧ 9223372036854775808 < un then (-9223372036854775808, .rangeErr)
  else (if neg then -(un : Int) else (un : Int), e)

/-- Go `strconv.ParseInt(s, 10, 64)`: optional sign, decimal digits, clamping
to the `int64` range with `ErrRange` on overflow, `0` with `ErrSyntax` on
malformed input. -/
def goParseInt10 (s : String) : Int × GoPErr :=
  match s.data with
  | [] => (0, .syntaxErr)
  | c :: rest =>
    match parseUint10 (if c = '+' ∨ c = '-' then rest else c :: rest) with
    | (_, .syntaxErr) => (0, .syntaxErr)
    | (un, .rangeErr) => intCutoffStep (c = '-') un .rangeErr
    | (un, .ok) => intCutoffStep (c = '-') un .ok

/-- Go `strconv`'s `underscoreOK`: underscores may only separate digits (or
follow a base prefix); tracks the class of the previously seen character. -/
inductive USaw where
  | start
  | digit
  | under
  | other
deriving DecidableEq

/-- The scanning loop of Go `strconv.underscoreOK`. -/
def underscoreOKLoop (hex : Bool) (saw : USaw) : List Char → Bool
  | [] => decide (saw ≠ USaw.under)
  | c :: cs =>
    if ('0' ≤ c ∧ c ≤ '9') ∨ (hex ∧ 'a' ≤ lowerC c ∧ lowerC c ≤ 'f') then
      underscoreOKLoop hex .digit cs
    else if c = '_' then
      (if saw ≠ USaw.digit then false else underscoreOKLoop hex .under cs)
    else if saw = USaw.under then false
    else underscoreOKLoop hex .other cs

/-- Go `strconv.underscoreOK` on the original (pre-prefix-stripping) input:
optional sign, optional base prefix (which counts as a digit), then the scan. -/
def underscoreOK (s0 : List Char) : Bool :=
  let s1 : List Char :=
    match s0 with
    | c :: rest => if c = '-' ∨ c = '+' then rest else s0
    | [] => s0
  match s1 with
  | c0 :: c1 :: rest =>
    if c0 = '0' ∧ (lowerC c1 = 'b' ∨ lowerC c1 = 'o' ∨ lowerC c1 = 'x') then
      underscoreOKLoop (lowerC c1 = 'x') .digit rest
    else underscoreOKLoop false .start s1
  | _ => underscoreOKLoop false .start s1

/-- Go `strconv.ParseUint(s, 0, 64)`: automatic base detection from a `0b` /
`0o` / `0x` / leading-`0` prefix, underscores permitted between digits,
value clamped to `maxU64` with `ErrRange` on overflow. -/
def goParseUint0 (s : String) : Nat × GoPErr :=
  match s.data with
  | [] => (0, .syntaxErr)
  | c0 :: rest =>
    let bb : Nat × List Char :=
      if c0 = '0' then
        match rest with
        | c1 :: c2 :: rest2 =>
          if lowerC c1 = 'b' then (2, c2 :: rest2)
          else if lowerC c1 = 'o' then (8, c2 :: rest2)
          else if lowerC c1 = 'x' then (16, c2 :: rest2)
          else (8, rest)
        | _ => (8, rest)
      else (10, c0 :: rest)
    match parseUintLoop bb.1 true 0 bb.2 with
    | (n, .ok) => if underscoreOK (c0 :: rest) then (n, .ok) else (0, .syntaxErr)
    | r => r

/-- Go `strconv.ParseBool` with the error discarded (as in
`binary, _ := strconv.ParseBool(...)`): the zero value `false` is kept on
error, so only the six accepted true-spellings yield `true`. -/
def goParseBool (s : String) : Bool :=
  match s with
  | "1" => true
  | "t" => true
  | "T" => true
  | "true" => true
  | "TRUE" => true
  | "True" => true
  | _ => false

/-- Go `fmt`'s `%#x` rendering of a nonzero `uint64`: `0x` followed by
lowercase hex digits, no padding. -/
def hex0x (n : Nat) : String := "0x" ++ String.mk (Nat.toDigits 16 n)

/-- Wrap an integer into the `int64` range, modelling Go's two's-complement
arithmetic on `time.Duration` products. -/
def wrap64 (x : Int) : Int :=
  (x + 9223372036854775808) % 18446744073709551616 - 9223372036854775808

/-- The seconds value used by `Profiler.Profile`:
`sec, _ := strconv.ParseInt(r.FormValue("seconds"), 10, 64); if sec == 0 { sec = 30 }`. -/
def profileSeconds (s : String) : Int :=
  let sec := (goParseInt10 s).1
  if sec = 0 then 30 else sec

/-- The nanosecond duration `time.Duration(sec) * time.Second` computed by
`Profiler.Profile` (with `int64` wraparound). -/
def profileDurNs (s : String) : Int := wrap64 (profileSeconds s * 1000000000)

/-- The seconds value used by `Profiler.Trace`, as a function of the result
of `strconv.ParseFloat(r.FormValue("seconds"), 64)` (value `v`, error flag
`err`): `if sec <= 0 || err != nil { sec = 1 }`.  The float value is modelled
as a rational; the comparison with zero is exact. -/
def traceSeconds (v : ℚ) (err : Bool) : ℚ :=
  if v ≤ 0 ∨ err = true then 1 else v

/-- Effective wait of the `sleep` helper: `select` between `time.After(d)`
(which fires immediately for non-positive `d`) and the client-disconnect
notification (a disconnect `c` nanoseconds into the wait, if any). -/
def sleepWaitNs (d : Int) (disconnectAt : Option Int) : Int :=
  let t := max d 0
  match disconnectAt with
  | none => t
  | some c => min t (max c 0)

/-- How the `sleep` helper's `select` ended: the `time.After` timer fired, or
the `CloseNotifier` channel reported the client gone. -/
inductive WaitEnd where
  | timer
  | clientGone
deriving DecidableEq

/-- Observable side effects of a handler on the process-wide sampler:
entering the bounded wait, stopping the CPU profile, stopping the trace, and
issuing the symbolization call. -/
inductive Ev where
  | sleepEv (w : WaitEnd)
  | stopCPUEv
  | stopTraceEv
  | symbolizeEv
deriving DecidableEq, BEq

/-- Operational model of Go's `http.ResponseWriter`: the status is fixed by
the first `WriteHeader` (later calls are superfluous and ignored) or
implicitly set to 200 by the first body write; `writes` counts `Write` calls. -/
structure RW where
  contentType : String
  status : Option Nat
  body : String
  writes : Nat
deriving DecidableEq

/-- A fresh response writer (no header set, nothing written). -/
def RW.init : RW := ⟨"", none, "", 0⟩

/-- `w.Header().Set("Content-Type", ct)` (handlers only set it before the
first write, where it takes effect). -/
def RW.setCT (w : RW) (ct : String) : RW := { w with contentType := ct }

/-- `w.WriteHeader(h)`: only the first status wins. -/
def RW.writeHeader (w : RW) (h : Nat) : RW :=
  match w.status with
  | some _ => w
  | none => { w with status := some h }

/-- `w.Write(s)`: locks the status at 200 if no `WriteHeader` came first. -/
def RW.write (w : RW) (s : String) : RW :=
  { w with
    status := some (w.status.getD 200)
    body := w.body ++ s
    writes := w.writes + 1 }

/-- The HTTP status the client observes. -/
def RW.finalStatus (w : RW) : Nat := w.status.getD 200

/-- Inputs of one `Profiler.Profile` request.  `Prof` is the (abstract) type
of the external `profile.Profile`; `parse`, `symbolize` and `generate` are the
external collaborators `profile.Parse`, `symbolz.Symbolize` (which mutates the
profile and may return an error) and `report.NewDefault`/`report.Generate`
(whose output depends on the profile and the `CumSort` flag).  `startErr` is
the result of `pprof.StartCPUProfile`, `raw` the bytes accumulated in `buf`
during the capture, `waitEnd` how the bounded wait ended. -/
structure ProfileIn (Prof : Type) where
  seconds : String
  binaryS : String
  cumS : String
  startErr : Option String
  raw : String
  waitEnd : WaitEnd
  parse : String → Except String Prof
  symbolize : Prof → Prof × Option String
  generate : Prof → Bool → String

/-- Embedding of `Profiler.Profile` (src/unnamed/part_000:84-144): parse the
`seconds`/`binary`/`cum` form values, start the CPU profile (fail with 500 if
that errors), run the bounded wait, stop, then either return the raw bytes
(binary) or parse → symbolize → render the text report.  Returns the final
response writer and the trace of sampler side effects. -/
def profileHandler {Prof : Type} (i : ProfileIn Prof) : RW × List Ev :=
  let binary := goParseBool i.binaryS
  let cum := goParseBool i.cumS
  let w := RW.init.setCT "text/plain; charset=utf-8"
  match i.startErr with
  | some e =>
    ((w.writeHeader 500).write ("Could not enable CPU profiling: " ++ e ++ "\n"), [])
  | none =>
    let evs := [Ev.sleepEv i.waitEnd, Ev.stopCPUEv]
    if binary then
      ((w.setCT "application/octet-stream").write i.raw, evs)
    else
      match i.parse i.raw with
      | .error e =>
        ((w.writeHeader 500).write ("Failed to parse profile: " ++ e ++ "\n"), evs)
      | .ok prof =>
        let ps := i.symbolize prof
        let evs := evs ++ [Ev.symbolizeEv]
        let w :=
          match ps.2 with
          | some e => (w.writeHeader 500).write ("Failed to symbolize profile: " ++ e ++ "\n")
          | none => w
        (w.write (i.generate ps.1 cum), evs)

/-- Inputs of one `Profiler.Trace` request.  `secVal`/`secErr` are the result
of `strconv.ParseFloat(r.FormValue("seconds"), 64)` (external stdlib call),
`startErr` the result of `trace.Start`, `raw` the bytes the tracer streams to
the response writer between `Start` and `Stop`. -/
structure TraceIn where
  secVal : ℚ
  secErr : Bool
  startErr : Option String
  raw : String
  waitEnd : WaitEnd

/-- Embedding of `Profiler.Trace` (src/unnamed/part_000:149-168): clamp the
duration, set the octet-stream content type, start tracing (on failure reset
the content type and fail with 500), wait, stop. -/
def traceHandler (i : TraceIn) : RW × List Ev :=
  let w := RW.init.setCT "application/octet-stream"
  match i.startErr with
  | some e =>
    (((w.setCT "text/plain; charset=utf-8").writeHeader 500).write
       ("Could not enable tracing: " ++ e ++ "\n"), [])
  | none =>
    (w.write i.raw, [Ev.sleepEv i.waitEnd, Ev.stopTraceEv])

/-- The successive results of `bufio.ReadSlice('+')` over the request input:
the input bytes split at every `'+'` (the delimiter consumed, all but the
last word returned with a nil error, the last with the stream's terminal
condition). -/
def splitPlus : List Char → List (List Char)
  | [] => [[]]
  | '+' :: cs => [] :: splitPlus cs
  | c :: cs =>
    match splitPlus cs with
    | w :: ws => (c :: w) :: ws
    | [] => [[c]]

/-- The body of the per-word step of `Profiler.Symbol`'s loop: parse the word
with `strconv.ParseUint(string(word), 0, 64)` (error discarded), and if the
value is nonzero and `runtime.FuncForPC` (the `oracle`) knows a function for
it, append a `<hex address> <function name>` line to the buffer. -/
def symbolStep (oracle : Nat → Option String) (buf : String) (word : List Char) : String :=
  let pc := (goParseUint0 (String.mk word)).1
  if pc ≠ 0 then
    match oracle pc with
    | some f => buf ++ hex0x pc ++ " " ++ f ++ "\n"
    | none => buf
  else buf

/-- The read loop of `Profiler.Symbol` (src/unnamed/part_000:193-214) over the
`ReadSlice` results: process every word; at the last word (the one returned
together with the terminal condition) append `reading request: <error>` if the
stream ended with an error other than `io.EOF` (`endErr = some e`), then stop. -/
def symbolLoop (oracle : Nat → Option String) (endErr : Option String)
    (buf : String) : List (List Char) → String
  | [] => buf
  | [wlast] =>
    let buf := symbolStep oracle buf wlast
    match endErr with
    | none => buf
    | some e => buf ++ "reading request: " ++ e ++ "\n"
  | word :: ws => symbolLoop oracle endErr (symbolStep oracle buf word) ws

/-- Embedding of the buffer built by `Profiler.Symbol`: the unconditional
`num_symbols: 1` header followed by the loop's output.  `content` is the byte
stream the handler reads (the raw query for GET, the body for POST), `endErr`
its terminal condition (`none` = clean end of stream / `io.EOF`). -/
def symbolRun (oracle : Nat → Option String) (content : String)
    (endErr : Option String) : String :=
  symbolLoop oracle endErr "num_symbols: 1\n" (splitPlus content.data)

/-- Embedding of `Profiler.Symbol` (src/unnamed/part_000:173-217): buffer the
whole output, then issue a single `w.Write(buf.Bytes())`. -/
def symbolHandler (oracle : Nat → Option String) (content : String)
    (endErr : Option String) : RW :=
  (RW.init.setCT "text/plain; charset=utf-8").write (symbolRun oracle content endErr)

/-- The per-token output of the Symbol endpoint as the spec describes it
(one line for a token that parses to a nonzero counter owned by a known
function, nothing otherwise); used to characterise the loop. -/
def symbolLineSpec (oracle : Nat → Option String) (word : List Char) : String :=
  let pc := (goParseUint0 (String.mk word)).1
  if pc ≠ 0 then
    match oracle pc with
    | some f => hex0x pc ++ " " ++ f ++ "\n"
    | none => ""
  else ""

/-- The flag characters of a `fmt` verb (`#`, `0`, `+`, `-`, space). -/
def isFlagC (c : Char) : Bool :=
  c = '#' ∨ c = '0' ∨ c = '+' ∨ c = '-' ∨ c = ' '

/-- The `simpleFormat` flag loop of `fmt.doPrintf` with no operands: consume
flag characters; any other character ends the loop (the fast path requires an
operand and is never taken). -/
def dropFlags : List Char → List Char
  | c :: cs => if isFlagC c then dropFlags cs else c :: cs
  | [] => []

/-- `fmt.parsenum` as used for widths/precisions: consume decimal digits,
report whether any digit was seen; a value exceeding `1e6` (`tooLarge`) aborts
to the end of the format with `isnum = false`. -/
def parsenumGo (num : Nat) (isnum : Bool) : List Char → Bool × List Char
  | c :: cs =>
    if '0' ≤ c ∧ c ≤ '9' then
      if 1000000 < num then (false, [])
      else parsenumGo (num * 10 + (c.toNat - 48)) true cs
    else (isnum, c :: cs)
  | [] => (isnum, [])

/-- Validity of the digit segment inside a `[n]` argument index: nonempty, all
digits, consumed exactly, never `tooLarge` (mirrors `parsenum(format, 1, i)`
followed by the `!ok || newi != i` check in `fmt.parseArgNumber`). -/
def parsenumSeg (num : Nat) (isnum : Bool) : List Char → Bool
  | [] => isnum
  | c :: cs =>
    if '0' ≤ c ∧ c ≤ '9' then
      if 1000000 < num then false
      else parsenumSeg (num * 10 + (c.toNat - 48)) true cs
    else false

/-- The characters before the first `']'` of a list, when one exists. -/
def splitAtRB : List Char → Option (List Char)
  | [] => none
  | ']' :: _ => some []
  | c :: cs =>
    match splitAtRB cs with
    | some seg => some (c :: seg)
    | none => none

/-- `fmt.parseArgNumber` on a format suffix beginning with `'['`: the number
of characters consumed and whether a well-formed `[n]` index was found. -/
def parseArgNumber (f : List Char) : Nat × Bool :=
  if f.length < 3 then (1, false)
  else
    match f with
    | _ :: tail =>
      match splitAtRB tail with
      | none => (1, false)
      | some seg => (seg.length + 2, parsenumSeg 0 false seg)
    | [] => (1, false)

/-- State threaded through the processing of one verb of `fmt.doPrintf`:
remaining format, the `afterIndex` and `goodArgNum` flags, accumulated output. -/
structure FmtSt where
  rest : List Char
  afterIndex : Bool
  good : Bool
  out : String

/-- `fmt.(*pp).argNumber` with zero operands: a `[n]` index can never be in
range, so `goodArgNum` becomes false whenever one is present; with no `'['`
the state is unchanged except `afterIndex := false`. -/
def fmtArgNum (st : FmtSt) : FmtSt :=
  match st.rest with
  | '[' :: _ =>
    let pa := parseArgNumber st.rest
    { st with rest := st.rest.drop pa.1, afterIndex := pa.2, good := false }
  | _ => { st with afterIndex := false }

/-- Processing of a single `%` directive by `fmt.doPrintf` with no operands:
flags, optional argument index, width (a `*` width emits `%!(BADWIDTH)`),
optional precision (a `*` precision emits `%!(BADPREC)`), then the verb:
end of format emits `%!(NOVERB)` and stops the whole format loop, `%` emits a
literal percent, a bad argument index emits `%!v(BADINDEX)`, and otherwise the
missing operand emits `%!v(MISSING)`.  Returns the output, the remaining
format, and whether the format loop continues. -/
def processVerb (cs0 : List Char) : String × List Char × Bool :=
  let st1 := fmtArgNum ⟨dropFlags cs0, false, true, ""⟩
  let st2 :=
    match st1.rest with
    | '*' :: rest =>
      { st1 with rest := rest, out := st1.out ++ "%!(BADWIDTH)", afterIndex := false }
    | _ =>
      let pn := parsenumGo 0 false st1.rest
      if st1.afterIndex ∧ pn.1 = true then { st1 with rest := pn.2, good := false }
      else { st1 with rest := pn.2 }
  let st3 :=
    match st2.rest with
    | '.' :: c2 :: rest =>
      let sta := { st2 with
        rest := c2 :: rest
        good := if st2.afterIndex then false else st2.good }
      let stb := fmtArgNum sta
      match stb.rest with
      | '*' :: rest2 =>
        { stb with rest := rest2, out := stb.out ++ "%!(BADPREC)", afterIndex := false }
      | _ => { stb with rest := (parsenumGo 0 false stb.rest).2 }
    | _ => st2
  let st4 := if st3.afterIndex then st3 else fmtArgNum st3
  match st4.rest with
  | [] => (st4.out ++ "%!(NOVERB)", [], false)
  | v :: rest =>
    if v = '%' then (st4.out ++ "%", rest, true)
    else if st4.good = false then (st4.out ++ "%!" ++ v.toString ++ "(BADINDEX)", rest, true)
    else (st4.out ++ "%!" ++ v.toString ++ "(MISSING)", rest, true)

/-- The format loop of `fmt.doPrintf` with no operands, fuel-based (each
iteration consumes at least the `%` or one literal character, so an initial
fuel of `length + 1` never runs out). -/
def doPrintfAux : Nat → List Char → String
  | 0, _ => ""
  | _ + 1, [] => ""
  | fuel + 1, '%' :: cs =>
    let r := processVerb cs
    if r.2.2 then r.1 ++ doPrintfAux fuel r.2.1 else r.1
  | fuel + 1, c :: cs => c.toString ++ doPrintfAux fuel cs

/-- `fmt.Sprintf(format)` with no operands (the string `fmt.Fprintf(w, s)`
writes when `s` is used as the format and no operand list is given). -/
def goSprintfNoArgs (format : String) : String :=
  doPrintfAux (format.length + 1) format.data

/-- Embedding of `Profiler.Cmdline` (src/unnamed/part_000:77-80): the response
body of `fmt.Fprintf(w, strings.Join(osArgs, "\x00"))` — the NUL-joined
argument vector is passed as the FORMAT STRING of `Fprintf`. -/
def cmdlineBody (osArgs : List String) : String :=
  goSprintfNoArgs (String.intercalate "\x00" osArgs)

/-- State of one request in the two-request capture race: not yet attempted,
capture running, finished after a successful capture, or finished after the
start attempt failed. -/
inductive RSt where
  | idle
  | running
  | doneOk
  | doneErr
deriving DecidableEq, Fintype

/-- The shared system state of two concurrent `/profile` requests `a` and `b`:
the process-wide single-slot sampler flag (`pprof.StartCPUProfile`'s
`cpu.profiling` state — its documented contract: starting fails while a
profile is already active) and each request's progress. -/
structure Sys where
  sampler : Bool
  a : RSt
  b : RSt
deriving DecidableEq, Fintype

/-- One scheduled step of a single request against the sampler: an idle
request attempts `StartCPUProfile` (failing cleanly if the sampler is busy);
a running request performs its guaranteed `StopCPUProfile`; finished requests
do nothing. -/
def reqStep (smp : Bool) : RSt → Bool × RSt
  | .idle => if smp then (smp, .doneErr) else (true, .running)
  | .running => (false, .doneOk)
  | s => (smp, s)

/-- Schedule one step of request `a` (`who = false`) or `b` (`who = true`). -/
def sysStep (s : Sys) : Bool → Sys
  | false =>
    let r := reqStep s.sampler s.a
    { s with sampler := r.1, a := r.2 }
  | true =>
    let r := reqStep s.sampler s.b
    { s with sampler := r.1, b := r.2 }

/-- Run a whole schedule (a list of which request acts at each step). -/
def sysRun : List Bool → Sys → Sys
  | [], s => s
  | w :: ws, s => sysRun ws (sysStep s w)

/-- Initial state: sampler idle, neither request started. -/
def sysInit : Sys := ⟨false, .idle, .idle⟩

/-- Invariant after both requests have attempted their start while the other's
capture window was open: exactly one holds the sampler slot (or already
finished successfully), the other failed its start, and the sampler flag is
set exactly while a capture runs. -/
def raceInv (s : Sys) : Prop :=
  (s.a = .doneErr) ≠ (s.b = .doneErr) ∧
  (s.a = .doneErr → s.b = .running ∨ s.b = .doneOk) ∧
  (s.b = .doneErr → s.a = .running ∨ s.a = .doneOk) ∧
  (s.sampler = true ↔ (s.a = .running ∨ s.b = .running))

instance (s : Sys) : Decidable (raceInv s) := by
  unfold raceInv; infer_instance

/-- Concatenation of a list of strings (the total output of a sequence of
buffer appends). -/
def strConcat : List String → String
  | [] => ""
  | s :: l => s ++ strConcat l

/-- The trailing diagnostic of the Symbol loop: empty on a clean end of
stream, a `reading request:` line on any other read error. -/
def endStr : Option String → String
  | none => ""
  | some e => "reading request: " ++ e ++ "\n"

/-- A concrete non-binary Profile request whose symbolization call fails. -/
def c1In : ProfileIn Unit :=
  { seconds := "", binaryS := "", cumS := "", startErr := none, raw := "RAW",
    waitEnd := .timer, parse := fun _ => Except.ok (),
    symbolize := fun p => (p, some "boom"), generate := fun _ _ => "REPORT" }

/-- A concrete Profile request whose capture start fails. -/
def c3pIn : ProfileIn Unit :=
  { seconds := "30", binaryS := "", cumS := "",
    startErr := some "cpu profiling already in use",
    raw := "", waitEnd := .timer, parse := fun _ => Except.ok (),
    symbolize := fun p => (p, none), generate := fun _ _ => "REPORT" }

/-- A concrete Trace request whose tracing start fails. -/
def c3tIn : TraceIn :=
  { secVal := 1, secErr := false, startErr := some "tracing is already enabled",
    raw := "", waitEnd := .timer }

/-- A concrete Profile request with a successful start, ending by client
disconnect. -/
def c4pIn : ProfileIn Unit :=
  { seconds := "5", binaryS := "", cumS := "", startErr := none, raw := "RAW",
    waitEnd := .clientGone, parse := fun _ => Except.ok (),
    symbolize := fun p => (p, none), generate := fun _ _ => "REPORT" }

/-- A concrete Trace request with a successful start. -/
def c4tIn : TraceIn :=
  { secVal := 1, secErr := false, startErr := none, raw := "TRACEBYTES",
    waitEnd := .timer }

/-- A concrete non-binary Profile request whose raw bytes fail to parse. -/
def c6In : ProfileIn Unit :=
  { seconds := "", binaryS := "0", cumS := "", startErr := none, raw := "garbage",
    waitEnd := .timer, parse := fun _ => Except.error "unrecognized profile format",
    symbolize := fun p => (p, none), generate := fun _ _ => "REPORT" }

/-- The loser of a concrete capture race: its start attempt failed. -/
def c9In : ProfileIn Unit :=
  { seconds := "", binaryS := "", cumS := "",
    startErr := some "cpu profiling already in use",
    raw := "", waitEnd := .timer, parse := fun _ => Except.ok (),
    symbolize := fun p => (p, none), generate := fun _ _ => "" }

theorem symbolStep_eq (oracle : Nat → Option String) (buf : String) (w : List Char) :
    symbolStep oracle buf w = buf ++ symbolLineSpec oracle w := by
  simp only [symbolStep, symbolLineSpec]
  split
  · cases h : oracle (goParseUint0 (String.mk w)).1 <;>
      simp [h, String.append_assoc]
  · simp

theorem splitPlus_ne_nil (cs : List Char) : splitPlus cs ≠ [] := by
  unfold splitPlus
  split
  · simp
  · simp
  · split <;> simp

theorem symbolLoop_eq (oracle : Nat → Option String) (endErr : Option String)
    (ws : List (List Char)) (buf : String) (h : ws ≠ []) :
    symbolLoop oracle endErr buf ws =
      buf ++ strConcat (ws.map (symbolLineSpec oracle)) ++ endStr endErr := by
  induction ws generalizing buf with
  | nil => exact absurd rfl h
  | cons w ws ih =>
    cases ws with
    | nil =>
      cases endErr <;>
        simp [symbolLoop, symbolStep_eq, strConcat, endStr, String.append_assoc]
    | cons w2 ws2 =>
      rw [show symbolLoop oracle endErr buf (w :: w2 :: ws2) =
            symbolLoop oracle endErr (symbolStep oracle buf w) (w2 :: ws2) from rfl,
          ih _ (by simp), symbolStep_eq]
      simp [strConcat, String.append_assoc]

/-- The Symbol buffer, characterised token by token: the header, one line per
word as the spec describes it, and the trailing read-error diagnostic. -/
theorem symbolRun_eq (oracle : Nat → Option String) (content : String)
    (endErr : Option String) :
    symbolRun oracle content endErr =
      "num_symbols: 1\n" ++
        strConcat ((splitPlus content.data).map (symbolLineSpec oracle)) ++
        endStr endErr :=
  symbolLoop_eq oracle endErr _ _ (splitPlus_ne_nil content.data)

theorem intCutoffStep_snd (neg : Bool) (un : Nat) (e : GoPErr) :
    (intCutoffStep neg un e).2 = GoPErr.rangeErr ∨ (intCutoffStep neg un e).2 = e := by
  unfold intCutoffStep
  split
  · exact Or.inl rfl
  · split
    · exact Or.inl rfl
    · exact Or.inr rfl

/-- A syntax error from Go `ParseInt` always comes with the zero value (only
range errors clamp to a nonzero boundary). -/
theorem intCutoffStep_snd_range (neg : Bool) (un : Nat) :
    (intCutoffStep neg un GoPErr.rangeErr).2 ≠ GoPErr.syntaxErr := by
  rcases intCutoffStep_snd neg un GoPErr.rangeErr with h | h <;> rw [h] <;> simp

theorem intCutoffStep_snd_ok (neg : Bool) (un : Nat) :
    (intCutoffStep neg un GoPErr.ok).2 ≠ GoPErr.syntaxErr := by
  rcases intCutoffStep_snd neg un GoPErr.ok with h | h <;> rw [h] <;> simp

theorem goParseInt10_syntax (s : String) :
    (goParseInt10 s).2 = GoPErr.syntaxErr → (goParseInt10 s).1 = 0 := by
  unfold goParseInt10
  split
  · intro _; rfl
  · repeat' split
    all_goals
      first
        | (intro _; rfl)
        | (intro h; exact absurd h (intCutoffStep_snd_range _ _))
        | (intro h; exact absurd h (intCutoffStep_snd_ok _ _))

/-- Every interleaved step of the two racing requests preserves the race
invariant (checked over the finite state space). -/
theorem raceInv_step : ∀ (s : Sys) (w : Bool), raceInv s → raceInv (sysStep s w) := by
  decide

theorem raceInv_run (ws : List Bool) (s : Sys) (h : raceInv s) :
    raceInv (sysRun ws s) := by
  induction ws generalizing s with
  | nil => exact h
  | cons w ws ih => exact ih _ (raceInv_step s w h)

/-- When `pprof.StartCPUProfile` fails, `Profiler.Profile` responds 500 with
the diagnostic line only and performs no sampler side effect at all. -/
theorem profile_start_fail {Prof : Type} (i : ProfileIn Prof) (e : String)
    (hi : i.startErr = some e) :
    (profileHandler i).1.finalStatus = 500 ∧
    (profileHandler i).1.body = "Could not enable CPU profiling: " ++ e ++ "\n" ∧
    (profileHandler i).2 = [] := by
  simp [profileHandler, hi, RW.init, RW.setCT, RW.writeHeader, RW.write, RW.finalStatus]

/-- When `trace.Start` fails, `Profiler.Trace` responds 500 with the
diagnostic line only and performs no sampler side effect at all. -/
theorem trace_start_fail (t : TraceIn) (e : String) (ht : t.startErr = some e) :
    (traceHandler t).1.finalStatus = 500 ∧
    (traceHandler t).1.body = "Could not enable tracing: " ++ e ++ "\n" ∧
    (traceHandler t).2 = [] := by
  simp [traceHandler, ht, RW.init, RW.setCT, RW.writeHeader, RW.write, RW.finalStatus]

theorem beq_sleep_stopCPU (w : WaitEnd) : (Ev.sleepEv w == Ev.stopCPUEv) = false := rfl

theorem beq_symbolize_stopCPU : (Ev.symbolizeEv == Ev.stopCPUEv) = false := rfl

theorem beq_stopCPU_refl : (Ev.stopCPUEv == Ev.stopCPUEv) = true := rfl

/-- C1 counterexample: for a concrete non-binary `/profile` request whose
symbolization call fails, the response status is 500, not the HTTP 200 the
claim asserts — even though the warning line and the generated report are
both present in the body. -/
theorem c1_counterexample :
    (profileHandler c1In).1.finalStatus ≠ 200 ∧
    (profileHandler c1In).1.finalStatus = 500 ∧
    (profileHandler c1In).1.body = "Failed to symbolize profile: boom\nREPORT" := by
  refine ⟨by decide, by decide, by decide⟩

/-- C1 (amended): for a non-binary `/profile` request, a symbolization
failure is non-fatal to report generation — the error message is written to
the response and the report is still generated and appended after it — but
the handler first calls `WriteHeader(500)`, so the request returns HTTP 500
rather than 200. -/
theorem c1_symbolization_nonfatal_500 {Prof : Type} (i : ProfileIn Prof)
    (prof : Prof) (e : String)
    (hs : i.startErr = none) (hb : goParseBool i.binaryS = false)
    (hp : i.parse i.raw = Except.ok prof) (he : (i.symbolize prof).2 = some e) :
    (profileHandler i).1.finalStatus = 500 ∧
    (profileHandler i).1.body =
      "Failed to symbolize profile: " ++ e ++ "\n" ++
        i.generate (i.symbolize prof).1 (goParseBool i.cumS) ∧
    Ev.symbolizeEv ∈ (profileHandler i).2 := by
  simp [profileHandler, hs, hb, hp, he, RW.init, RW.setCT, RW.writeHeader,
    RW.write, RW.finalStatus, String.append_assoc]

/-- C1 witness: the amended theorem applied to the concrete request. -/
theorem c1_witness :
    (profileHandler c1In).1.finalStatus = 500 ∧
    (profileHandler c1In).1.body =
      "Failed to symbolize profile: " ++ "boom" ++ "\n" ++
        c1In.generate (c1In.symbolize ()).1 (goParseBool c1In.cumS) ∧
    Ev.symbolizeEv ∈ (profileHandler c1In).2 :=
  c1_symbolization_nonfatal_500 c1In () "boom" rfl (by decide) rfl rfl

/-- C2 counterexample: `seconds=-5` on `/profile` is not clamped to the
default — the parsed value `-5` is used, and the bounded wait then returns
immediately (effective duration 0ns), contradicting the claimed 30-second
effective capture duration. -/
theorem c2_counterexample :
    profileSeconds "-5" = -5 ∧ profileSeconds "-5" ≠ 30 ∧
    sleepWaitNs (profileDurNs "-5") none = 0 := by decide

/-- C2 (amended): on `/profile` an unspecified, zero, or syntactically
unparsable `seconds` value yields 30 seconds, but any nonzero parsed value —
including negative values — is used as-is; on `/trace` an unspecified,
non-positive, or unparsable value yields 1 second, as claimed. -/
theorem c2_duration_policy (s : String) (v : ℚ) (err : Bool) :
    ((goParseInt10 s).2 = GoPErr.syntaxErr → profileSeconds s = 30) ∧
    ((goParseInt10 s).1 = 0 → profileSeconds s = 30) ∧
    ((goParseInt10 s).1 ≠ 0 → profileSeconds s = (goParseInt10 s).1) ∧
    (v ≤ 0 ∨ err = true → traceSeconds v err = 1) ∧
    (0 < v → err = false → traceSeconds v err = v) := by
  refine ⟨?_, ?_, ?_, ?_, ?_⟩
  · intro h; simp [profileSeconds, goParseInt10_syntax s h]
  · intro h; simp [profileSeconds, h]
  · intro h; simp [profileSeconds, h]
  · intro h; simp [traceSeconds, h]
  · intro h1 h2; simp [traceSeconds, h2, not_le.mpr h1]

/-- C2 witness: the amended duration policy at concrete inputs. -/
theorem c2_witness :
    profileSeconds "abc" = 30 ∧ profileSeconds "0" = 30 ∧
    profileSeconds "-5" = -5 ∧ traceSeconds (-3) false = 1 ∧
    traceSeconds 2 false = 2 :=
  ⟨(c2_duration_policy "abc" 0 false).1 (by decide),
   (c2_duration_policy "0" 0 false).2.1 (by decide),
   (c2_duration_policy "-5" 0 false).2.2.1 (by decide),
   (c2_duration_policy "x" (-3) false).2.2.2.1 (Or.inl (by norm_num)),
   (c2_duration_policy "x" 2 false).2.2.2.2 (by norm_num) rfl⟩

/-- C3 (confirmed): when starting the capture fails — `pprof.StartCPUProfile`
on `/profile` or `trace.Start` on `/trace` — the handler immediately responds
HTTP 500 with the error message as its whole body and performs no sampler
side effect at all: the timed wait is never entered and stop is never called. -/
theorem c3_start_failure_immediate {Prof : Type} (i : ProfileIn Prof)
    (t : TraceIn) (e et : String)
    (hi : i.startErr = some e) (ht : t.startErr = some et) :
    ((profileHandler i).1.finalStatus = 500 ∧
     (profileHandler i).1.body = "Could not enable CPU profiling: " ++ e ++ "\n" ∧
     (profileHandler i).2 = []) ∧
    ((traceHandler t).1.finalStatus = 500 ∧
     (traceHandler t).1.body = "Could not enable tracing: " ++ et ++ "\n" ∧
     (traceHandler t).2 = []) :=
  ⟨profile_start_fail i e hi, trace_start_fail t et ht⟩

/-- C3 witness: the start-failure behaviour at concrete requests. -/
theorem c3_witness :
    ((profileHandler c3pIn).1.finalStatus = 500 ∧
     (profileHandler c3pIn).1.body =
       "Could not enable CPU profiling: " ++ "cpu profiling already in use" ++ "\n" ∧
     (profileHandler c3pIn).2 = []) ∧
    ((traceHandler c3tIn).1.finalStatus = 500 ∧
     (traceHandler c3tIn).1.body =
       "Could not enable tracing: " ++ "tracing is already enabled" ++ "\n" ∧
     (traceHandler c3tIn).2 = []) :=
  c3_start_failure_immediate c3pIn c3tIn "cpu profiling already in use"
    "tracing is already enabled" rfl rfl

/-- C4 (confirmed): whenever capture start succeeds on `/profile` or `/trace`,
the corresponding stop is invoked exactly once, directly after the bounded
wait, regardless of whether the wait ended by timer expiry or client
disconnect (the `waitEnd` field is arbitrary). -/
theorem c4_stop_called_once {Prof : Type} (i : ProfileIn Prof) (t : TraceIn)
    (hi : i.startErr = none) (ht : t.startErr = none) :
    ((profileHandler i).2.count Ev.stopCPUEv = 1 ∧
     (profileHandler i).2.take 2 = [Ev.sleepEv i.waitEnd, Ev.stopCPUEv]) ∧
    ((traceHandler t).2 = [Ev.sleepEv t.waitEnd, Ev.stopTraceEv]) := by
  refine ⟨⟨?_, ?_⟩, ?_⟩
  · simp only [profileHandler, hi]
    split
    · simp [List.count_cons, beq_sleep_stopCPU, beq_stopCPU_refl]
    · split <;>
        simp [List.count_cons, beq_sleep_stopCPU, beq_stopCPU_refl,
          beq_symbolize_stopCPU]
  · simp only [profileHandler, hi]
    split
    · simp
    · split <;> simp
  · simp [traceHandler, ht]

/-- C4 witness: stop-exactly-once at concrete requests (the profile one
ending by client disconnect, the trace one by timer expiry). -/
theorem c4_witness :
    ((profileHandler c4pIn).2.count Ev.stopCPUEv = 1 ∧
     (profileHandler c4pIn).2.take 2 = [Ev.sleepEv c4pIn.waitEnd, Ev.stopCPUEv]) ∧
    ((traceHandler c4tIn).2 = [Ev.sleepEv c4tIn.waitEnd, Ev.stopTraceEv]) :=
  c4_stop_called_once c4pIn c4tIn rfl rfl

/-- C5 counterexample: the token `18446744073709551616` (= 2^64) does not
parse as an unsigned integer (`ParseUint` reports a range error), yet because
the error is discarded and the clamped value 2^64-1 is nonzero, the handler
looks it up and emits an output line when the symbol table maps 2^64-1 to a
function — contradicting the claim that unparsable tokens produce no line. -/
theorem c5_counterexample :
    (goParseUint0 "18446744073709551616").2 = GoPErr.rangeErr ∧
    symbolRun
        (fun pc => if pc = 18446744073709551615 then some "overflowed" else none)
        "18446744073709551616" none =
      "num_symbols: 1\n0xffffffffffffffff overflowed\n" := by
  refine ⟨by decide, by decide⟩

/-- C5 (amended): the `/symbol` output is exactly one line per token that
parses to a nonzero counter owned by a known function, in input order after
the header; tokens that are zero or syntactically unparsable, and valid
counters with no known function, contribute nothing and no error — but a
token whose value overflows `uint64` is clamped to 2^64-1 (its range error
discarded) and looked up like any other counter. -/
theorem c5_symbol_token_lines (oracle : Nat → Option String) (content : String)
    (endErr : Option String) :
    symbolRun oracle content endErr =
      "num_symbols: 1\n" ++
        strConcat ((splitPlus content.data).map (symbolLineSpec oracle)) ++
        endStr endErr :=
  symbolRun_eq oracle content endErr

/-- C6 (confirmed): for a non-binary `/profile` request, a parse failure of
the raw capture bytes is fatal — HTTP 500 with the diagnostic as the entire
body, no symbolization attempt, no (partial) report. -/
theorem c6_parse_failure_fatal {Prof : Type} (i : ProfileIn Prof) (e : String)
    (hs : i.startErr = none) (hb : goParseBool i.binaryS = false)
    (hp : i.parse i.raw = Except.error e) :
    (profileHandler i).1.finalStatus = 500 ∧
    (profileHandler i).1.body = "Failed to parse profile: " ++ e ++ "\n" ∧
    Ev.symbolizeEv ∉ (profileHandler i).2 := by
  simp [profileHandler, hs, hb, hp, RW.init, RW.setCT, RW.writeHeader,
    RW.write, RW.finalStatus]

/-- C6 witness: the parse-failure behaviour at a concrete request. -/
theorem c6_witness :
    (profileHandler c6In).1.finalStatus = 500 ∧
    (profileHandler c6In).1.body =
      "Failed to parse profile: " ++ "unrecognized profile format" ++ "\n" ∧
    Ev.symbolizeEv ∉ (profileHandler c6In).2 :=
  c6_parse_failure_fatal c6In "unrecognized profile format" rfl (by decide) rfl

/-- C7 (confirmed): `/symbol` buffers its whole response and issues exactly
one write after the input is consumed; a read error other than end-of-stream
appends a `reading request:` line after — not instead of — all output lines
produced from the input, so nothing already emitted is discarded. -/
theorem c7_buffered_single_write (oracle : Nat → Option String)
    (content e : String) :
    (symbolHandler oracle content (some e)).writes = 1 ∧
    (symbolHandler oracle content none).writes = 1 ∧
    (symbolHandler oracle content (some e)).body =
      (symbolHandler oracle content none).body ++
        ("reading request: " ++ e ++ "\n") := by
  refine ⟨rfl, rfl, ?_⟩
  simp [symbolHandler, RW.init, RW.setCT, RW.write, symbolRun_eq, endStr,
    String.append_assoc]

/-- C8 (code bug): `Cmdline` passes the NUL-joined argument vector to
`fmt.Fprintf` as the format string, so an argument containing `%` is mangled
(`prog␀50%` becomes `prog␀50%!(NOVERB)`), contradicting the handler's own
documentation; percent-free argument vectors are returned intact. -/
theorem c8_cmdline_format_string_bug :
    cmdlineBody ["prog", "50%"] = "prog\x0050%!(NOVERB)" ∧
    cmdlineBody ["prog", "50%"] ≠ String.intercalate "\x00" ["prog", "50%"] ∧
    cmdlineBody ["prog", "hello"] = String.intercalate "\x00" ["prog", "hello"] := by
  refine ⟨by decide, by decide, by decide⟩

/-- C9 (confirmed): in every interleaving of two `/profile` requests in which
both start attempts happen while the other request's capture window is open
(each request's first step precedes the other's second), exactly one start
succeeds; the race invariant — loser failed, winner running or finished, the
single-slot sampler flag consistent — holds at every later point, and the
loser's handler responds HTTP 500 immediately with no sampler side effect. -/
theorem c9_capture_race {Prof : Type} (x : Bool) (ws : List Bool)
    (i : ProfileIn Prof) (e : String) (hi : i.startErr = some e) :
    raceInv (sysRun ws (sysStep (sysStep sysInit x) (!x))) ∧
    ((profileHandler i).1.finalStatus = 500 ∧
     (profileHandler i).1.body = "Could not enable CPU profiling: " ++ e ++ "\n" ∧
     (profileHandler i).2 = []) := by
  refine ⟨raceInv_run ws _ ?_, profile_start_fail i e hi⟩
  cases x <;> decide

/-- C9 witness: a concrete schedule (request a starts, b starts, a stops) and
the concrete losing request. -/
theorem c9_witness :
    raceInv (sysRun [false] (sysStep (sysStep sysInit false) (!false))) ∧
    ((profileHandler c9In).1.finalStatus = 500 ∧
     (profileHandler c9In).1.body =
       "Could not enable CPU profiling: " ++ "cpu profiling already in use" ++ "\n" ∧
     (profileHandler c9In).2 = []) :=
  c9_capture_race false [false] c9In "cpu profiling already in use" rfl

/-- C10 (confirmed): every `/symbol` response body begins with the line
`num_symbols: 1`, unconditionally — for every symbol-table oracle (including
an empty one), every input token stream (including one with no valid
counters) and every stream-terminal condition. -/
theorem c10_num_symbols_header (oracle : Nat → Option String) (content : String)
    (endErr : Option String) :
    ∃ rest, (symbolHandler oracle content endErr).body = "num_symbols: 1\n" ++ rest := by
  refine ⟨strConcat ((splitPlus content.data).map (symbolLineSpec oracle)) ++
    endStr endErr, ?_⟩
  simp [symbolHandler, RW.init, RW.setCT, RW.write, symbolRun_eq,
    String.append_assoc]
